import Mathlib

/-!
Shallow embedding of the FreeDiscovery server resource layer
(`freediscovery/server/resources.py`) and of the operations it drives,
with theorems checking the natural-language specification against it.

Pure request-handling logic (argument normalization, the feature-extraction
status state machine, response assembly) is translated directly from the
source.  Operations of the repository that live outside the provided source
(`freediscovery.lsi.LSI.predict`, `freediscovery.utils.classification_score`,
the `Categorizer`/`Clustering` numerical kernels) are modelled from the
specification text; each such definition says so in its doc comment.
-/

namespace FreeDiscovery

/-- The numeric tolerance `EPSILON = 1e-3` defined at the top of
`resources.py` ("small numeric value"). -/
def EPSILON : ℚ := 1 / 1000

/-! ## Feature extraction status (`FeaturesApiElement.get`) -/

/-- The on-disk observable state of one feature-extraction directory:
the two boolean marker files, the number of completed numbered chunk
artifacts (`features-*[0-9]` glob), and the stored parameters
`chunk_size` and `n_samples`. -/
structure FeatureDirState where
  is_processing : Bool
  is_finished : Bool
  n_chunks : Nat
  chunk_size : Nat
  n_samples : Nat
deriving DecidableEq

/-- The body a feature-status query returns: an in-progress payload with a
processed-count estimate, a finished payload, or the error-schema payload. -/
inductive FeaturesGetResult where
  | inProgress (n_samples_processed : Nat) (n_samples : Nat)
  | finishedOk (n_samples_processed : Nat) (n_samples : Nat)
  | failed (message : String)
deriving DecidableEq

namespace FeaturesApiElement

/-- Embedding of `FeaturesApiElement.get` (resources.py lines 82-96): branch
on the two markers; in flight returns 202 with
`min(n_chunks*chunk_size, n_samples)` processed, finished returns 200 with
`n_samples` processed, anything else returns the error schema with 520. -/
def get (st : FeatureDirState) : FeaturesGetResult × Nat :=
  if st.is_processing && !st.is_finished then
    (.inProgress (min (st.n_chunks * st.chunk_size) st.n_samples) st.n_samples, 202)
  else if !st.is_processing && st.is_finished then
    (.finishedOk st.n_samples st.n_samples, 200)
  else
    (.failed "Processing failed, see server logs!", 520)

end FeaturesApiElement

/-! ## Feature extraction request normalization (`FeaturesApi.post`) -/

/-- The decoded arguments `FeaturesApi.post` receives from the schema layer:
`use_idf` arrives as a number, `norm` as a string (possibly the literal
string "None"), and `min_df`/`max_df` are optional numeric thresholds. -/
structure FeaturesPostArgs where
  use_idf : ℚ
  norm : String
  use_hashing : Bool
  min_df : Option ℚ
  max_df : Option ℚ
deriving DecidableEq

/-- A document-frequency bound after normalization: either the fractional
value kept as supplied, or an absolute integer count produced by `int(...)`
truncation. -/
inductive DfBound where
  | fractional (value : ℚ)
  | absolute (value : ℤ)
deriving DecidableEq

/-- The effective configuration handed to `fe.preprocess(**args)`:
`use_idf` collapsed to a boolean, `norm` mapped to an optional string, and
the document-frequency keys possibly deleted or coerced. -/
structure FeaturesEffConfig where
  use_idf : Bool
  norm : Option String
  use_hashing : Bool
  min_df : Option DfBound
  max_df : Option DfBound
deriving DecidableEq

/-- The per-key coercion loop of `FeaturesApi.post`
(`if key in args and args[key] > 1. + EPSILON: args[key] = int(args[key])`):
a present value above `1 + EPSILON` is truncated to an integer, any other
present value is kept as the fractional bound it was supplied as. -/
def coerceDf (v : Option ℚ) : Option DfBound :=
  match v with
  | none => none
  | some q => if 1 + EPSILON < q then some (.absolute ⌊q⌋) else some (.fractional q)

namespace FeaturesApi

/-- Embedding of the argument-normalization part of `FeaturesApi.post`
(resources.py lines 63-76): `use_idf = use_idf > 0`; the string "None"
becomes no normalization; with hashing enabled both `min_df` and `max_df`
keys are deleted; then each remaining df key above `1 + EPSILON` is coerced
with `int(...)`. -/
def post (args : FeaturesPostArgs) : FeaturesEffConfig :=
  let min0 : Option ℚ := if args.use_hashing then none else args.min_df
  let max0 : Option ℚ := if args.use_hashing then none else args.max_df
  { use_idf := decide (0 < args.use_idf)
    norm := if args.norm = "None" then none else some args.norm
    use_hashing := args.use_hashing
    min_df := coerceDf min0
    max_df := coerceDf max0 }

end FeaturesApi

/-! ## Clustering fit endpoints -/

/-- Decoded arguments of `KmeanClusteringApi.post` after schema parsing. -/
structure KmeansPostArgs where
  dataset_id : String
  n_clusters : ℤ
  lsi_components : ℤ
deriving DecidableEq

/-- Schema parsing for the k-means endpoint: an omitted `lsi_components`
defaults to `-1` (`missing=-1`). -/
def parseKmeansArgs (dataset_id : String) (n_clusters : ℤ)
    (lsi_components : Option ℤ) : KmeansPostArgs :=
  ⟨dataset_id, n_clusters, lsi_components.getD (-1)⟩

/-- The arguments with which `cl.k_means(**args)` is invoked after the
handler's normalization. -/
structure KmeansFitCall where
  n_clusters : ℤ
  lsi_components : Option ℤ
deriving DecidableEq

namespace KmeanClusteringApi

/-- Embedding of `KmeanClusteringApi.post` (resources.py lines 292-306): a
negative `lsi_components` is replaced by `None`, `dataset_id` is split off
for the `Clustering` constructor and the rest is passed to `k_means`. -/
def post (args : KmeansPostArgs) : String × KmeansFitCall :=
  let lsi : Option ℤ :=
    if args.lsi_components < 0 then none else some args.lsi_components
  (args.dataset_id, ⟨args.n_clusters, lsi⟩)

end KmeanClusteringApi

/-- Decoded arguments of `BirchClusteringApi.post` after schema parsing. -/
structure BirchPostArgs where
  dataset_id : String
  n_clusters : ℤ
  lsi_components : ℤ
  threshold : Option ℚ
deriving DecidableEq

/-- Schema parsing for the Birch endpoint: an omitted `lsi_components`
defaults to `-1`; `threshold` has no default and stays optional. -/
def parseBirchArgs (dataset_id : String) (n_clusters : ℤ)
    (lsi_components : Option ℤ) (threshold : Option ℚ) : BirchPostArgs :=
  ⟨dataset_id, n_clusters, lsi_components.getD (-1), threshold⟩

/-- The arguments with which `cl.birch(**args)` is invoked. -/
structure BirchFitCall where
  n_clusters : ℤ
  lsi_components : Option ℤ
  threshold : Option ℚ
deriving DecidableEq

namespace BirchClusteringApi

/-- Embedding of `BirchClusteringApi.post` (resources.py lines 317-328). -/
def post (args : BirchPostArgs) : String × BirchFitCall :=
  let lsi : Option ℤ :=
    if args.lsi_components < 0 then none else some args.lsi_components
  (args.dataset_id, ⟨args.n_clusters, lsi, args.threshold⟩)

end BirchClusteringApi

/-- Decoded arguments of `WardHCClusteringApi.post` after schema parsing. -/
structure WardPostArgs where
  dataset_id : String
  n_clusters : ℤ
  lsi_components : ℤ
  n_neighbors : ℤ
deriving DecidableEq

/-- Schema parsing for the Ward endpoint: omitted `lsi_components` defaults
to `-1`, omitted `n_neighbors` defaults to `5`. -/
def parseWardArgs (dataset_id : String) (n_clusters : ℤ)
    (lsi_components : Option ℤ) (n_neighbors : Option ℤ) : WardPostArgs :=
  ⟨dataset_id, n_clusters, lsi_components.getD (-1), n_neighbors.getD 5⟩

/-- The arguments with which `cl.ward_hc(**args)` is invoked. -/
structure WardFitCall where
  n_clusters : ℤ
  lsi_components : Option ℤ
  n_neighbors : ℤ
deriving DecidableEq

namespace WardHCClusteringApi

/-- Embedding of `WardHCClusteringApi.post` (resources.py lines 339-353). -/
def post (args : WardPostArgs) : String × WardFitCall :=
  let lsi : Option ℤ :=
    if args.lsi_components < 0 then none else some args.lsi_components
  (args.dataset_id, ⟨args.n_clusters, lsi, args.n_neighbors⟩)

end WardHCClusteringApi

/-- Decoded arguments of `DBSCANClusteringApi.post` after schema parsing. -/
structure DBSCANPostArgs where
  dataset_id : String
  lsi_components : ℤ
  eps : ℚ
  min_samples : ℤ
deriving DecidableEq

/-- Schema parsing for the DBSCAN endpoint: omitted `lsi_components`
defaults to `-1`, omitted `eps` to `0.1`, omitted `min_samples` to `10`. -/
def parseDBSCANArgs (dataset_id : String) (lsi_components : Option ℤ)
    (eps : Option ℚ) (min_samples : Option ℤ) : DBSCANPostArgs :=
  ⟨dataset_id, lsi_components.getD (-1), eps.getD (1 / 10), min_samples.getD 10⟩

/-- The arguments with which `cl.dbscan(**args)` is invoked. -/
structure DBSCANFitCall where
  lsi_components : Option ℤ
  eps : ℚ
  min_samples : ℤ
deriving DecidableEq

namespace DBSCANClusteringApi

/-- Embedding of `DBSCANClusteringApi.post` (resources.py lines 363-377). -/
def post (args : DBSCANPostArgs) : String × DBSCANFitCall :=
  let lsi : Option ℤ :=
    if args.lsi_components < 0 then none else some args.lsi_components
  (args.dataset_id, ⟨lsi, args.eps, args.min_samples⟩)

end DBSCANClusteringApi

/-! ## Scoring utility (`classification_score`) -/

/-- The five classification-quality metrics the scoring utility returns. -/
structure ClassificationScores where
  «recall» : ℚ
  precision : ℚ
  f1 : ℚ
  auc_roc : ℚ
  average_precision : ℚ
deriving DecidableEq

/-- Look up the reference label recorded for identifier `x`: the label paired
with the first occurrence of `x` in the reference identifier sequence. -/
def lookupLabel (ids : List String) (labels : List Bool) (x : String) : Option Bool :=
  ((ids.zip labels).find? (fun p => p.1 == x)).map (fun p => p.2)

/-- Align reference and predicted label sequences by identifier: for each
predicted (identifier, label) pair whose identifier also occurs in the
reference set, produce the (reference label, predicted label) pair. -/
def alignPairs (refIds : List String) (refLabels : List Bool)
    (predIds : List String) (predLabels : List Bool) : List (Bool × Bool) :=
  (predIds.zip predLabels).filterMap
    (fun p => (lookupLabel refIds refLabels p.1).map (fun t => (t, p.2)))

/-- Metrics from the confusion counts: recall, precision and f1 from the
usual formulas; when the aligned reference has no positive or no negative
example, auc_roc and average_precision degrade to the sentinel `-1`;
otherwise auc_roc is the two-threshold trapezoid `(1 + tpr - fpr)/2` and
average_precision the two-threshold precision-recall area. -/
def scoresOfCounts (tp fp fn tn : ℚ) : ClassificationScores :=
  let recl := tp / (tp + fn)
  let prec := tp / (tp + fp)
  let f1 := 2 * prec * recl / (prec + recl)
  if tp + fn = 0 ∨ fp + tn = 0 then
    ⟨recl, prec, f1, -1, -1⟩
  else
    ⟨recl, prec, f1, (1 + tp / (tp + fn) - fp / (fp + tn)) / 2,
      recl * prec + (1 - recl) * ((tp + fn) / (tp + fn + fp + tn))⟩

/-- Modelled from the spec: `classification_score` of `freediscovery.utils`
is not under the provided source; per §4.7 it aligns reference and
predicted labels by identifier (the two sets may differ in membership or
order), computes recall, precision, f1, auc_roc and average_precision, and
degrades auc_roc/average_precision to a defined sentinel when the reference
has no positive or no negative example. -/
def classification_score (refIds : List String) (refLabels : List Bool)
    (predIds : List String) (predLabels : List Bool) : ClassificationScores :=
  let pairs := alignPairs refIds refLabels predIds predLabels
  scoresOfCounts (pairs.countP (fun p => p.1 && p.2) : ℚ)
    (pairs.countP (fun p => !p.1 && p.2) : ℚ)
    (pairs.countP (fun p => p.1 && !p.2) : ℚ)
    (pairs.countP (fun p => !p.1 && !p.2) : ℚ)

/-! ## Categorization training endpoint (`ModelsApi.post`) -/

/-- The raw request body of `ModelsApi.post` before schema parsing: `cv`
and `training_scores` may be omitted. -/
structure ModelsPostRequest where
  dataset_id : String
  relevant_filenames : List String
  non_relevant_filenames : List String
  method : String
  cv : Option Bool
  training_scores : Option Bool
deriving DecidableEq

/-- The decoded arguments after schema parsing. -/
structure ModelsPostArgs where
  dataset_id : String
  relevant_filenames : List String
  non_relevant_filenames : List String
  method : String
  cv : Bool
  training_scores : Bool
deriving DecidableEq

/-- Schema parsing per `_models_api_post_args` (resources.py lines 196-205):
both `cv` and `training_scores` carry `missing=True`, so an omitted value
defaults to `True`. -/
def parse_models_api_post_args (r : ModelsPostRequest) : ModelsPostArgs :=
  ⟨r.dataset_id, r.relevant_filenames, r.non_relevant_filenames, r.method,
    r.cv.getD true, r.training_scores.getD true⟩

/-- Modelled from the spec: the `Categorizer` of
`freediscovery.categorization` is not under the provided source; per §4.4,
`train` returns the training identifiers/labels and `predict` returns a
prediction for every document of the corpus.  This record abstracts what
the handler reads back from the trainer. -/
structure CategorizerOutcome where
  mid : String
  x_train : List String
  y_train : List Bool
  x_res : List String
  y_res : List Bool
deriving DecidableEq

/-- The response body of `ModelsApi.post`: the five metric fields plus the
new model identifier. -/
structure ModelsPostResult where
  scores : ClassificationScores
  id : String
deriving DecidableEq

namespace ModelsApi

/-- Embedding of the response-assembly part of `ModelsApi.post`
(resources.py lines 217-237): when `training_scores` is set the handler
scores the full-corpus prediction against the training labels; otherwise it
returns the sentinel record with every metric at `-1`. -/
def post (args : ModelsPostArgs) (cat : CategorizerOutcome) : ModelsPostResult :=
  if args.training_scores then
    { scores := classification_score cat.x_train cat.y_train cat.x_res cat.y_res
      id := cat.mid }
  else
    { scores := ⟨-1, -1, -1, -1, -1⟩, id := cat.mid }

end ModelsApi

/-! ## Nearest-max relevance classification (`LsiApiElementPredict.post`) -/

/-- First-minimum scan: fold over the remaining distances, keeping the
smallest value seen so far together with its index (ties keep the earlier
index). -/
def argminAux : List ℚ → Nat → ℚ × Nat → ℚ × Nat
  | [], _, best => best
  | x :: xs, i, best =>
    if x < best.1 then argminAux xs (i + 1) (x, i) else argminAux xs (i + 1) best

/-- The minimum value of a distance list together with the index attaining
it (the empty list gives the junk value `(0, 0)`). -/
def argmin (l : List ℚ) : ℚ × Nat :=
  match l with
  | [] => (0, 0)
  | x :: xs => argminAux xs 1 (x, 0)

/-- `d` is the distance to the nearest exemplar of a pool: it is one of the
pool's distances and below all of them. -/
def isNearest (dists : List ℚ) (d : ℚ) : Prop :=
  d ∈ dists ∧ ∀ x ∈ dists, d ≤ x

instance (dists : List ℚ) (d : ℚ) : Decidable (isNearest dists d) := by
  unfold isNearest
  infer_instance

/-- The per-document result of the nearest-max relevance rule: the binary
prediction, the distance to the nearest relevant and to the nearest
non-relevant exemplar (`D_d_p`/`D_d_n`), and the indices of those two
exemplars (`idx_d_p`/`idx_d_n`). -/
structure RelevancePrediction where
  prediction : Bool
  d_rel : ℚ
  d_nrel : ℚ
  idx_rel : Nat
  idx_nrel : Nat
deriving DecidableEq

/-- Modelled from the spec: the nearest-max accumulation rule of
`LSI.predict` (`freediscovery.lsi`, not under the provided source); per
§4.3 a document is labeled relevant iff its nearest-relevant distance is
strictly smaller than its nearest-non-relevant distance, ties favoring
non-relevant.  A document is represented by its distance list to the
relevant exemplars and to the non-relevant exemplars. -/
def classifyByRelevance (relDists nrelDists : List ℚ) : RelevancePrediction :=
  let p := argmin relDists
  let n := argmin nrelDists
  ⟨decide (p.1 < n.1), p.1, n.1, p.2, n.2⟩

/-- Modelled from the spec: `LSI.predict` applies the nearest-max rule to
every document of the Feature Set. -/
def lsiPredict (docs : List (List ℚ × List ℚ)) : List RelevancePrediction :=
  docs.map (fun d => classifyByRelevance d.1 d.2)

/-- The response body of `LsiApiElementPredict.post`: the classification
scores of the training set merged with the five per-document sequences. -/
structure LsiPredictResponse where
  scores : ClassificationScores
  prediction : List Bool
  prediction_rel : List ℚ
  prediction_nrel : List ℚ
  nearest_rel_doc : List Nat
  nearest_nrel_doc : List Nat
deriving DecidableEq

namespace LsiApiElementPredict

/-- Embedding of `LsiApiElementPredict.post` (resources.py lines 153-167):
the handler scores the training set against its own re-prediction and
merges in, per document, the prediction, the two nearest distances and the
two nearest exemplar indices. -/
def post (x_train : List String) (y_train : List Bool) (y_train_res : List Bool)
    (docs : List (List ℚ × List ℚ)) : LsiPredictResponse :=
  let res := lsiPredict docs
  { scores := classification_score x_train y_train x_train y_train_res
    prediction := res.map (fun r => r.prediction)
    prediction_rel := res.map (fun r => r.d_rel)
    prediction_nrel := res.map (fun r => r.d_nrel)
    nearest_rel_doc := res.map (fun r => r.idx_rel)
    nearest_nrel_doc := res.map (fun r => r.idx_nrel) }

end LsiApiElementPredict

/-! ## Helper lemmas -/

/-- A `filterMap` whose function returns `some` on every element of the
list is a `map`. -/
theorem filterMap_eq_map_of_some {α β : Type} (l : List α) (f : α → Option β)
    (g : α → β) (h : ∀ a ∈ l, f a = some (g a)) : l.filterMap f = l.map g := by
  induction l with
  | nil => rfl
  | cons x xs ih =>
    rw [List.filterMap_cons, h x (List.mem_cons_self x xs), List.map_cons,
      ih (fun a ha => h a (List.mem_cons_of_mem x ha))]

/-- With distinct reference identifiers, looking up the identifier of any
pair of the reference zip returns that pair's own label. -/
theorem lookupLabel_zip_self : ∀ (ids : List String) (labels : List Bool),
    ids.Nodup → ∀ p ∈ ids.zip labels, lookupLabel ids labels p.1 = some p.2 := by
  intro ids
  induction ids with
  | nil => intro labels _ p hp; simp at hp
  | cons i is ih =>
    intro labels hnd p hp
    cases labels with
    | nil => simp at hp
    | cons b bs =>
      rw [List.zip_cons_cons] at hp
      rcases List.mem_cons.mp hp with rfl | hp2
      · simp [lookupLabel]
      · have hxin : p.1 ∈ is := (List.of_mem_zip hp2).1
        have hne : i ≠ p.1 := fun he => (List.nodup_cons.mp hnd).1 (he ▸ hxin)
        have hstep : List.find? (fun q : String × Bool => q.1 == p.1) ((i, b) :: is.zip bs)
            = List.find? (fun q => q.1 == p.1) (is.zip bs) :=
          List.find?_cons_of_neg _ (by simp [hne])
        have htail := ih bs (List.nodup_cons.mp hnd).2 p hp2
        unfold lookupLabel at htail ⊢
        rw [List.zip_cons_cons, hstep]
        exact htail

/-- Scoring a label sequence against itself aligns every pair with its own
label (given distinct identifiers). -/
theorem alignPairs_self (ids : List String) (labels : List Bool)
    (hnd : ids.Nodup) :
    alignPairs ids labels ids labels = (ids.zip labels).map (fun p => (p.2, p.2)) := by
  unfold alignPairs
  apply filterMap_eq_map_of_some
  intro p hp
  rw [lookupLabel_zip_self ids labels hnd p hp]
  rfl

/-- Any label occurring in the label sequence occurs as the second
component of some pair of the zip, provided enough identifiers exist. -/
theorem exists_mem_zip_snd : ∀ (ids : List String) (labels : List Bool) (b : Bool),
    labels.length ≤ ids.length → b ∈ labels → ∃ x, (x, b) ∈ ids.zip labels := by
  intro ids
  induction ids with
  | nil =>
    intro labels b hlen hb
    have hnil : labels = [] := List.eq_nil_of_length_eq_zero (Nat.le_zero.mp hlen)
    subst hnil
    simp at hb
  | cons i is ih =>
    intro labels b hlen hb
    cases labels with
    | nil => simp at hb
    | cons l ls =>
      rcases List.mem_cons.mp hb with rfl | hb2
      · exact ⟨i, by rw [List.zip_cons_cons]; exact List.mem_cons_self _ _⟩
      · obtain ⟨x, hx⟩ := ih ls b (Nat.le_of_succ_le_succ (by simpa using hlen)) hb2
        exact ⟨x, by rw [List.zip_cons_cons]; exact List.mem_cons_of_mem _ hx⟩

/-- With a positive and a negative present and no false positives or false
negatives, every metric evaluates to `1`. -/
theorem scoresOfCounts_perfect (tp tn : ℚ) (htp : 0 < tp) (htn : 0 < tn) :
    scoresOfCounts tp 0 0 tn = ⟨1, 1, 1, 1, 1⟩ := by
  have h1 : tp + 0 ≠ 0 := by linarith
  have h2 : (0 : ℚ) + tn ≠ 0 := by linarith
  unfold scoresOfCounts
  rw [if_neg (by push_neg; exact ⟨h1, h2⟩)]
  have hd : tp / tp = 1 := div_self (ne_of_gt htp)
  norm_num [hd]

/-- The scan never returns a value above the running best. -/
theorem argminAux_fst_le : ∀ (l : List ℚ) (i : Nat) (best : ℚ × Nat),
    (argminAux l i best).1 ≤ best.1 := by
  intro l
  induction l with
  | nil => intro i best; exact le_refl _
  | cons x xs ih =>
    intro i best
    unfold argminAux
    split
    · exact le_trans (ih (i + 1) (x, i)) (le_of_lt (by assumption))
    · exact ih (i + 1) best

/-- The scan returns the running best's value or a value of the list. -/
theorem argminAux_fst_mem : ∀ (l : List ℚ) (i : Nat) (best : ℚ × Nat),
    (argminAux l i best).1 = best.1 ∨ (argminAux l i best).1 ∈ l := by
  intro l
  induction l with
  | nil => intro i best; exact Or.inl rfl
  | cons x xs ih =>
    intro i best
    unfold argminAux
    split
    · rcases ih (i + 1) (x, i) with he | hm
      · exact Or.inr (he ▸ List.mem_cons_self x xs)
      · exact Or.inr (List.mem_cons_of_mem x hm)
    · rcases ih (i + 1) best with he | hm
      · exact Or.inl he
      · exact Or.inr (List.mem_cons_of_mem x hm)

/-- The scan's value is below every element of the remaining list. -/
theorem argminAux_fst_le_of_mem : ∀ (l : List ℚ) (i : Nat) (best : ℚ × Nat)
    (y : ℚ), y ∈ l → (argminAux l i best).1 ≤ y := by
  intro l
  induction l with
  | nil => intro i best y hy; simp at hy
  | cons x xs ih =>
    intro i best y hy
    rcases List.mem_cons.mp hy with rfl | hy2
    · unfold argminAux
      split
      · exact argminAux_fst_le xs (i + 1) (y, i)
      · exact le_trans (argminAux_fst_le xs (i + 1) best) (le_of_not_lt (by assumption))
    · unfold argminAux
      split
      · exact ih (i + 1) (x, i) y hy2
      · exact ih (i + 1) best y hy2

/-- The selected minimum is below every element of the list. -/
theorem argmin_fst_le_of_mem (l : List ℚ) (y : ℚ) (hy : y ∈ l) :
    (argmin l).1 ≤ y := by
  cases l with
  | nil => simp at hy
  | cons x xs =>
    rcases List.mem_cons.mp hy with rfl | hy2
    · exact argminAux_fst_le xs 1 (y, 0)
    · exact argminAux_fst_le_of_mem xs 1 (x, 0) y hy2

/-- On a nonempty list the selected minimum is an element of the list. -/
theorem argmin_fst_mem (l : List ℚ) (h : l ≠ []) : (argmin l).1 ∈ l := by
  cases l with
  | nil => exact absurd rfl h
  | cons x xs =>
    rcases argminAux_fst_mem xs 1 (x, 0) with he | hm
    · exact he ▸ List.mem_cons_self x xs
    · exact List.mem_cons_of_mem x hm

/-- The nearest distance is unique and is what the scan selects. -/
theorem argmin_fst_eq_of_isNearest (l : List ℚ) (d : ℚ) (h : isNearest l d) :
    (argmin l).1 = d :=
  le_antisymm (argmin_fst_le_of_mem l d h.1)
    (h.2 _ (argmin_fst_mem l (List.ne_nil_of_mem h.1)))

/-! ## Theorems for the feature-extraction claims -/

/-- C1: while the `processing` marker is present and `processing_finished`
is absent, a status query returns the accepted (202) in-progress result
whose processed count is `min(n_chunks * chunk_size, n_samples)`, which is
never more than the total sample count. -/
theorem featuresStatus_inProgress (st : FeatureDirState)
    (h1 : st.is_processing = true) (h2 : st.is_finished = false) :
    FeaturesApiElement.get st =
      (.inProgress (min (st.n_chunks * st.chunk_size) st.n_samples) st.n_samples, 202)
    ∧ min (st.n_chunks * st.chunk_size) st.n_samples ≤ st.n_samples := by
  constructor
  · simp [FeaturesApiElement.get, h1, h2]
  · exact Nat.min_le_right _ _

/-- Witness for C1: the spec scenario of a 10-document corpus with
`chunk_size = 4` after 2 completed chunks reports 8 of 10 processed. -/
theorem featuresStatus_inProgress_witness :
    (⟨true, false, 2, 4, 10⟩ : FeatureDirState).is_processing = true
    ∧ (⟨true, false, 2, 4, 10⟩ : FeatureDirState).is_finished = false
    ∧ (FeaturesApiElement.get ⟨true, false, 2, 4, 10⟩ =
        (.inProgress (min (2 * 4) 10) 10, 202)
      ∧ min (2 * 4) 10 ≤ 10) :=
  ⟨rfl, rfl, featuresStatus_inProgress ⟨true, false, 2, 4, 10⟩ rfl rfl⟩

/-- C2: whenever the two markers are not in one of the two expected
combinations (in flight, or cleanly finished), the status query returns the
explicit processing-failure error with code 520, and never an in-progress
payload. -/
theorem featuresStatus_failed (st : FeatureDirState)
    (h : ¬(st.is_processing = true ∧ st.is_finished = false)
       ∧ ¬(st.is_processing = false ∧ st.is_finished = true)) :
    FeaturesApiElement.get st = (.failed "Processing failed, see server logs!", 520)
    ∧ ∀ p n c, FeaturesApiElement.get st ≠ (.inProgress p n, c) := by
  obtain ⟨h1, h2⟩ := h
  have hcase : (st.is_processing = true ∧ st.is_finished = true)
      ∨ (st.is_processing = false ∧ st.is_finished = false) := by
    rcases Bool.eq_false_or_eq_true st.is_processing with hp | hp <;>
      rcases Bool.eq_false_or_eq_true st.is_finished with hf | hf
    · exact Or.inl ⟨hp, hf⟩
    · exact absurd ⟨hp, hf⟩ h1
    · exact absurd ⟨hp, hf⟩ h2
    · exact Or.inr ⟨hp, hf⟩
  rcases hcase with ⟨hp, hf⟩ | ⟨hp, hf⟩ <;>
    exact ⟨by simp [FeaturesApiElement.get, hp, hf], by intro p n c; simp [FeaturesApiElement.get, hp, hf]⟩

/-- Witness for C2: both markers present (a stale inconsistent combination)
yields the 520 processing-failure error. -/
theorem featuresStatus_failed_witness :
    (¬((⟨true, true, 2, 4, 10⟩ : FeatureDirState).is_processing = true
        ∧ (⟨true, true, 2, 4, 10⟩ : FeatureDirState).is_finished = false)
      ∧ ¬((⟨true, true, 2, 4, 10⟩ : FeatureDirState).is_processing = false
        ∧ (⟨true, true, 2, 4, 10⟩ : FeatureDirState).is_finished = true))
    ∧ (FeaturesApiElement.get ⟨true, true, 2, 4, 10⟩ =
        (.failed "Processing failed, see server logs!", 520)
      ∧ ∀ p n c, FeaturesApiElement.get ⟨true, true, 2, 4, 10⟩ ≠ (.inProgress p n, c)) :=
  ⟨by simp, featuresStatus_failed ⟨true, true, 2, 4, 10⟩ (by simp)⟩

/-- C8: with `processing_finished` present and `processing` absent, the
status query reports terminal success (200) and the processed count equals
the total sample count exactly. -/
theorem featuresStatus_finished (st : FeatureDirState)
    (h1 : st.is_processing = false) (h2 : st.is_finished = true) :
    FeaturesApiElement.get st = (.finishedOk st.n_samples st.n_samples, 200) := by
  simp [FeaturesApiElement.get, h1, h2]

/-- Witness for C8: the spec scenario after the third chunk of a
10-document corpus reports all 10 processed with state finished. -/
theorem featuresStatus_finished_witness :
    (⟨false, true, 3, 4, 10⟩ : FeatureDirState).is_processing = false
    ∧ (⟨false, true, 3, 4, 10⟩ : FeatureDirState).is_finished = true
    ∧ FeaturesApiElement.get ⟨false, true, 3, 4, 10⟩ = (.finishedOk 10 10, 200) :=
  ⟨rfl, rfl, featuresStatus_finished ⟨false, true, 3, 4, 10⟩ rfl rfl⟩

/-- C3: with hashing enabled the effective configuration passed to
preprocessing carries no `min_df` and no `max_df` key, and the request is
still processed (the handler produces a configuration, with hashing kept). -/
theorem hashing_drops_df_bounds (args : FeaturesPostArgs)
    (h : args.use_hashing = true) :
    (FeaturesApi.post args).min_df = none
    ∧ (FeaturesApi.post args).max_df = none
    ∧ (FeaturesApi.post args).use_hashing = true := by
  refine ⟨?_, ?_, ?_⟩ <;> simp [FeaturesApi.post, h, coerceDf]

/-- Witness for C3: the spec scenario of a hashing request that also
supplies `max_df = 50` stores a configuration with no `max_df`. -/
theorem hashing_drops_df_bounds_witness :
    (⟨1, "l2", true, none, some 50⟩ : FeaturesPostArgs).use_hashing = true
    ∧ ((FeaturesApi.post ⟨1, "l2", true, none, some 50⟩).min_df = none
      ∧ (FeaturesApi.post ⟨1, "l2", true, none, some 50⟩).max_df = none
      ∧ (FeaturesApi.post ⟨1, "l2", true, none, some 50⟩).use_hashing = true) :=
  ⟨rfl, hashing_drops_df_bounds ⟨1, "l2", true, none, some 50⟩ rfl⟩

/-- Counterexample to C4 as stated: the value `2001/2000` is strictly
greater than `1`, yet without hashing the handler keeps it as a fractional
bound (the coercion only fires above `1 + EPSILON = 1.001`), so it is not
coerced to the absolute integer bound `1`. -/
theorem df_coercion_counterexample :
    (1 : ℚ) < 2001 / 2000
    ∧ (FeaturesApi.post ⟨1, "l2", false, none, some (2001 / 2000)⟩).max_df
        = some (DfBound.fractional (2001 / 2000))
    ∧ some (DfBound.fractional ((2001 : ℚ) / 2000)) ≠ some (DfBound.absolute 1) := by
  refine ⟨by norm_num, ?_, by simp⟩
  have hle : ¬(1 + EPSILON < (2001 : ℚ) / 2000) := by rw [EPSILON]; norm_num
  simp [FeaturesApi.post, coerceDf, hle]

/-- C4 amended: without hashing, a supplied document-frequency value that is
at most `1` is kept as a fractional bound, and a value above the tolerance
`1 + EPSILON` is coerced to the absolute integer bound `int(value)`;
values within the tolerance just above `1` are also kept fractional. -/
theorem df_coercion (args : FeaturesPostArgs) (q : ℚ)
    (h : args.use_hashing = false) :
    (args.min_df = some q → q ≤ 1 →
      (FeaturesApi.post args).min_df = some (.fractional q))
    ∧ (args.min_df = some q → 1 + EPSILON < q →
      (FeaturesApi.post args).min_df = some (.absolute ⌊q⌋))
    ∧ (args.max_df = some q → q ≤ 1 →
      (FeaturesApi.post args).max_df = some (.fractional q))
    ∧ (args.max_df = some q → 1 + EPSILON < q →
      (FeaturesApi.post args).max_df = some (.absolute ⌊q⌋))
    ∧ (args.min_df = some q → q ≤ 1 + EPSILON →
      (FeaturesApi.post args).min_df = some (.fractional q))
    ∧ (args.max_df = some q → q ≤ 1 + EPSILON →
      (FeaturesApi.post args).max_df = some (.fractional q)) := by
  have hfrac : ∀ r : ℚ, r ≤ 1 + EPSILON → coerceDf (some r) = some (.fractional r) := by
    intro r hr
    have hnot : ¬(1 + EPSILON < r) := not_lt.mpr hr
    simp [coerceDf, hnot]
  have habs : ∀ r : ℚ, 1 + EPSILON < r → coerceDf (some r) = some (.absolute ⌊r⌋) := by
    intro r hr
    simp [coerceDf, hr]
  have hone : ∀ r : ℚ, r ≤ 1 → r ≤ 1 + EPSILON := by
    intro r hr
    rw [EPSILON]; linarith
  refine ⟨?_, ?_, ?_, ?_, ?_, ?_⟩ <;> intro hdf hq
  · simp [FeaturesApi.post, h, hdf, hfrac q (hone q hq)]
  · simp [FeaturesApi.post, h, hdf, habs q hq]
  · simp [FeaturesApi.post, h, hdf, hfrac q (hone q hq)]
  · simp [FeaturesApi.post, h, hdf, habs q hq]
  · simp [FeaturesApi.post, h, hdf, hfrac q hq]
  · simp [FeaturesApi.post, h, hdf, hfrac q hq]

/-- Witness for C4: with hashing off, `min_df = 1/2` stays the fractional
bound `1/2`, `max_df = 3` is coerced to the absolute bound `3`, and the
in-tolerance value `min_df = 2001/2000` (inside `(1, 1 + EPSILON]`) also
stays fractional. -/
theorem df_coercion_witness :
    ((⟨1, "l2", false, some (1 / 2), some 3⟩ : FeaturesPostArgs).use_hashing = false
      ∧ (1 / 2 : ℚ) ≤ 1 ∧ 1 + EPSILON < (3 : ℚ)
      ∧ (1 : ℚ) < 2001 / 2000 ∧ (2001 : ℚ) / 2000 ≤ 1 + EPSILON)
    ∧ (FeaturesApi.post ⟨1, "l2", false, some (1 / 2), some 3⟩).min_df
        = some (.fractional (1 / 2))
    ∧ (FeaturesApi.post ⟨1, "l2", false, some (1 / 2), some 3⟩).max_df
        = some (.absolute ⌊(3 : ℚ)⌋)
    ∧ (FeaturesApi.post ⟨1, "l2", false, some (2001 / 2000), some 3⟩).min_df
        = some (.fractional (2001 / 2000)) :=
  ⟨⟨rfl, by norm_num, by rw [EPSILON]; norm_num, by norm_num,
      by rw [EPSILON]; norm_num⟩,
    (df_coercion ⟨1, "l2", false, some (1 / 2), some 3⟩ (1 / 2) rfl).1 rfl (by norm_num),
    (df_coercion ⟨1, "l2", false, some (1 / 2), some 3⟩ 3 rfl).2.2.2.1 rfl
      (by rw [EPSILON]; norm_num),
    (df_coercion ⟨1, "l2", false, some (2001 / 2000), some 3⟩ (2001 / 2000) rfl).2.2.2.2.1
      rfl (by rw [EPSILON]; norm_num)⟩

/-- Counterexample to C5 as stated: a request that does not explicitly ask
for training scores (the field is omitted) is parsed with
`training_scores = true` because of the `missing=True` default, and the
handler then computes real metrics — here recall `1`, not the sentinel
`-1`. -/
theorem training_scores_default_counterexample :
    (⟨"d", ["a"], [], "svm", none, none⟩ : ModelsPostRequest).training_scores = none
    ∧ (parse_models_api_post_args ⟨"d", ["a"], [], "svm", none, none⟩).training_scores = true
    ∧ (ModelsApi.post (parse_models_api_post_args ⟨"d", ["a"], [], "svm", none, none⟩)
        ⟨"m0", ["a"], [true], ["a"], [true]⟩).scores.«recall» = 1
    ∧ (ModelsApi.post (parse_models_api_post_args ⟨"d", ["a"], [], "svm", none, none⟩)
        ⟨"m0", ["a"], [true], ["a"], [true]⟩).scores.«recall» ≠ -1 := by
  have hpairs : alignPairs ["a"] [true] ["a"] [true] = [(true, true)] := rfl
  have hcs : classification_score ["a"] [true] ["a"] [true] = scoresOfCounts 1 0 0 0 := by
    unfold classification_score
    rw [hpairs]
    norm_num
  have hrec : (scoresOfCounts (1 : ℚ) 0 0 0).«recall» = 1 := by
    unfold scoresOfCounts
    norm_num
  have hpost : (ModelsApi.post (parse_models_api_post_args ⟨"d", ["a"], [], "svm", none, none⟩)
      ⟨"m0", ["a"], [true], ["a"], [true]⟩).scores
      = classification_score ["a"] [true] ["a"] [true] := by
    simp [ModelsApi.post, parse_models_api_post_args]
  refine ⟨rfl, rfl, ?_, ?_⟩
  · rw [hpost, hcs, hrec]
  · rw [hpost, hcs, hrec]
    norm_num

/-- C5 amended: training-set metrics are computed unless the caller
explicitly disables them (`training_scores=false`; an omitted flag defaults
to true); when disabled, the result still contains all five metric fields
(recall, precision, f1, auc_roc, average_precision), each set to the
sentinel `-1`, together with the model identifier. -/
theorem training_scores_sentinel (r : ModelsPostRequest) (cat : CategorizerOutcome) :
    ((parse_models_api_post_args r).training_scores = false ↔
      r.training_scores = some false)
    ∧ ((parse_models_api_post_args r).training_scores = false →
      (ModelsApi.post (parse_models_api_post_args r) cat).scores = ⟨-1, -1, -1, -1, -1⟩
      ∧ (ModelsApi.post (parse_models_api_post_args r) cat).id = cat.mid)
    ∧ ((parse_models_api_post_args r).training_scores = true →
      (ModelsApi.post (parse_models_api_post_args r) cat).scores =
        classification_score cat.x_train cat.y_train cat.x_res cat.y_res) := by
  refine ⟨?_, ?_, ?_⟩
  · rcases hr : r.training_scores with _ | b
    · simp [parse_models_api_post_args, hr]
    · cases b <;> simp [parse_models_api_post_args, hr]
  · intro h
    exact ⟨by simp [ModelsApi.post, h], by simp [ModelsApi.post, h]⟩
  · intro h
    simp [ModelsApi.post, h]

/-- Witness for C5: with `training_scores` explicitly false, the response
carries the sentinel record and the model identifier. -/
theorem training_scores_sentinel_witness :
    (parse_models_api_post_args ⟨"d", ["a"], [], "svm", none, some false⟩).training_scores
      = false
    ∧ ((ModelsApi.post (parse_models_api_post_args ⟨"d", ["a"], [], "svm", none, some false⟩)
          ⟨"m0", ["a"], [true], ["a"], [true]⟩).scores = ⟨-1, -1, -1, -1, -1⟩
      ∧ (ModelsApi.post (parse_models_api_post_args ⟨"d", ["a"], [], "svm", none, some false⟩)
          ⟨"m0", ["a"], [true], ["a"], [true]⟩).id = "m0") :=
  ⟨rfl,
    (training_scores_sentinel ⟨"d", ["a"], [], "svm", none, some false⟩
      ⟨"m0", ["a"], [true], ["a"], [true]⟩).2.1 rfl⟩

/-- C6: under the nearest-max rule a document is labeled relevant iff its
nearest-relevant distance is strictly smaller than its nearest-non-relevant
distance; in particular an exactly equidistant document is classified
non-relevant. -/
theorem nearestMax_rule (relDists nrelDists : List ℚ) (dp dn : ℚ)
    (hp : isNearest relDists dp) (hn : isNearest nrelDists dn) :
    ((classifyByRelevance relDists nrelDists).prediction = true ↔ dp < dn)
    ∧ (dp = dn → (classifyByRelevance relDists nrelDists).prediction = false) := by
  have hpe := argmin_fst_eq_of_isNearest relDists dp hp
  have hne := argmin_fst_eq_of_isNearest nrelDists dn hn
  constructor
  · simp [classifyByRelevance, hpe, hne]
  · intro he
    simp [classifyByRelevance, hpe, hne, he]

/-- Witness for C6: with nearest-relevant distance `1` and
nearest-non-relevant distance `1` (exact tie), the prediction is
non-relevant. -/
theorem nearestMax_rule_witness :
    isNearest [2, 1] 1 ∧ isNearest [1] 1
    ∧ (((classifyByRelevance [2, 1] [1]).prediction = true ↔ (1 : ℚ) < 1)
      ∧ ((1 : ℚ) = 1 → (classifyByRelevance [2, 1] [1]).prediction = false)) :=
  ⟨by decide, by decide, nearestMax_rule [2, 1] [1] 1 1 (by decide) (by decide)⟩

/-- C7: the relevance-classification response contains, for every document
of the Feature Set, the binary prediction, the distance to the nearest
relevant exemplar, the distance to the nearest non-relevant exemplar, and
the indices of those two exemplars; each of the five sequences has one
entry per document. -/
theorem lsi_predict_response_complete (x_train : List String) (y_train : List Bool)
    (y_train_res : List Bool) (docs : List (List ℚ × List ℚ)) :
    (LsiApiElementPredict.post x_train y_train y_train_res docs).prediction
        = docs.map (fun d => (classifyByRelevance d.1 d.2).prediction)
    ∧ (LsiApiElementPredict.post x_train y_train y_train_res docs).prediction_rel
        = docs.map (fun d => (classifyByRelevance d.1 d.2).d_rel)
    ∧ (LsiApiElementPredict.post x_train y_train y_train_res docs).prediction_nrel
        = docs.map (fun d => (classifyByRelevance d.1 d.2).d_nrel)
    ∧ (LsiApiElementPredict.post x_train y_train y_train_res docs).nearest_rel_doc
        = docs.map (fun d => (classifyByRelevance d.1 d.2).idx_rel)
    ∧ (LsiApiElementPredict.post x_train y_train y_train_res docs).nearest_nrel_doc
        = docs.map (fun d => (classifyByRelevance d.1 d.2).idx_nrel)
    ∧ (LsiApiElementPredict.post x_train y_train y_train_res docs).prediction.length
        = docs.length
    ∧ (LsiApiElementPredict.post x_train y_train y_train_res docs).scores
        = classification_score x_train y_train x_train y_train_res := by
  refine ⟨?_, ?_, ?_, ?_, ?_, ?_, ?_⟩ <;>
    simp [LsiApiElementPredict.post, lsiPredict, List.map_map, Function.comp]


/-- C9: over distinct identifiers with at least one positive and one
negative label, scoring a prediction set against itself as ground truth
yields recall, precision, f1, auc_roc and average_precision all `1`. -/
theorem classification_score_roundtrip (ids : List String) (labels : List Bool)
    (hnd : ids.Nodup) (hlen : labels.length ≤ ids.length)
    (hpos : true ∈ labels) (hneg : false ∈ labels) :
    classification_score ids labels ids labels = ⟨1, 1, 1, 1, 1⟩ := by
  obtain ⟨xp, hxp⟩ := exists_mem_zip_snd ids labels true hlen hpos
  obtain ⟨xn, hxn⟩ := exists_mem_zip_snd ids labels false hlen hneg
  unfold classification_score
  rw [alignPairs_self ids labels hnd]
  have htp : ((ids.zip labels).map (fun p => (p.2, p.2))).countP (fun p => p.1 && p.2)
      = (ids.zip labels).countP (fun q => q.2) := by
    rw [List.countP_map]
    congr 1
    funext x
    simp [Function.comp]
  have hfp : ((ids.zip labels).map (fun p => (p.2, p.2))).countP (fun p => !p.1 && p.2)
      = 0 := by
    rw [List.countP_map]
    simp [Function.comp]
  have hfn : ((ids.zip labels).map (fun p => (p.2, p.2))).countP (fun p => p.1 && !p.2)
      = 0 := by
    rw [List.countP_map]
    simp [Function.comp]
  have htn : ((ids.zip labels).map (fun p => (p.2, p.2))).countP (fun p => !p.1 && !p.2)
      = (ids.zip labels).countP (fun q => !q.2) := by
    rw [List.countP_map]
    congr 1
    funext x
    simp [Function.comp]
  simp only [htp, hfp, hfn, htn]
  have hp1 : (0 : ℚ) < ((ids.zip labels).countP (fun q => q.2) : ℚ) := by
    exact_mod_cast List.countP_pos_iff.mpr ⟨(xp, true), hxp, rfl⟩
  have hn1 : (0 : ℚ) < ((ids.zip labels).countP (fun q => !q.2) : ℚ) := by
    exact_mod_cast List.countP_pos_iff.mpr ⟨(xn, false), hxn, rfl⟩
  simpa using scoresOfCounts_perfect _ _ hp1 hn1

/-- Witness for C9: the two-document set `a ↦ relevant, b ↦ non-relevant`
scored against itself gives all metrics `1`. -/
theorem classification_score_roundtrip_witness :
    (["a", "b"] : List String).Nodup
    ∧ ([true, false] : List Bool).length ≤ (["a", "b"] : List String).length
    ∧ true ∈ [true, false]
    ∧ false ∈ [true, false]
    ∧ classification_score ["a", "b"] [true, false] ["a", "b"] [true, false]
        = ⟨1, 1, 1, 1, 1⟩ :=
  ⟨by decide, by decide, by decide, by decide,
    classification_score_roundtrip ["a", "b"] [true, false]
      (by decide) (by decide) (by decide) (by decide)⟩

/-- C10: in each of the four clustering fit endpoints, a negative
`lsi_components` (including the default `-1` substituted when the parameter
is omitted) is normalized to `None` in the arguments handed to the fitting
routine, so no semantic-subspace projection is requested. -/
theorem clustering_negative_lsi_is_none :
    (∀ a : KmeansPostArgs, a.lsi_components < 0 →
      (KmeanClusteringApi.post a).2.lsi_components = none)
    ∧ (∀ a : BirchPostArgs, a.lsi_components < 0 →
      (BirchClusteringApi.post a).2.lsi_components = none)
    ∧ (∀ a : WardPostArgs, a.lsi_components < 0 →
      (WardHCClusteringApi.post a).2.lsi_components = none)
    ∧ (∀ a : DBSCANPostArgs, a.lsi_components < 0 →
      (DBSCANClusteringApi.post a).2.lsi_components = none)
    ∧ (∀ d n, (parseKmeansArgs d n none).lsi_components = -1)
    ∧ (∀ d n t, (parseBirchArgs d n none t).lsi_components = -1)
    ∧ (∀ d n k, (parseWardArgs d n none k).lsi_components = -1)
    ∧ (∀ d e m, (parseDBSCANArgs d none e m).lsi_components = -1) := by
  refine ⟨?_, ?_, ?_, ?_, ?_, ?_, ?_, ?_⟩
  · intro a ha; simp [KmeanClusteringApi.post, ha]
  · intro a ha; simp [BirchClusteringApi.post, ha]
  · intro a ha; simp [WardHCClusteringApi.post, ha]
  · intro a ha; simp [DBSCANClusteringApi.post, ha]
  · intro d n; rfl
  · intro d n t; rfl
  · intro d n k; rfl
  · intro d e m; rfl

/-- Witness for C10: each of the four endpoints maps the omitted-parameter
default `-1` to `None` in the fit call. -/
theorem clustering_negative_lsi_is_none_witness :
    ((-1 : ℤ) < 0)
    ∧ (KmeanClusteringApi.post ⟨"d", 3, -1⟩).2.lsi_components = none
    ∧ (BirchClusteringApi.post ⟨"d", 3, -1, none⟩).2.lsi_components = none
    ∧ (WardHCClusteringApi.post ⟨"d", 3, -1, 5⟩).2.lsi_components = none
    ∧ (DBSCANClusteringApi.post ⟨"d", -1, 1 / 10, 10⟩).2.lsi_components = none :=
  ⟨by decide,
    clustering_negative_lsi_is_none.1 ⟨"d", 3, -1⟩ (by decide),
    clustering_negative_lsi_is_none.2.1 ⟨"d", 3, -1, none⟩ (by decide),
    clustering_negative_lsi_is_none.2.2.1 ⟨"d", 3, -1, 5⟩ (by decide),
    clustering_negative_lsi_is_none.2.2.2.1 ⟨"d", -1, 1 / 10, 10⟩ (by decide)⟩

end FreeDiscovery
